import Mathlib

/-!
Verification of the OSI (Onychomycosis Severity Index) grading core of the
MycoScan repository (`MycoScan v3.005/analysis/osi_grading.py`).

The Python functions are shallowly embedded as Lean functions:
* pixel masks are `List (List Nat)` rasters (row-major, one value per pixel);
* Python floats appearing in the grading arithmetic are modelled as rationals
  (`ℚ`) — every constant and comparison involved (band bounds, 0.2/0.4/0.6/0.8
  proximity thresholds, percentages with denominators bounded by the pixel
  count) is exact at the magnitudes the code handles;
* Python `int()` (truncation toward zero) is `pyInt`;
* the one exception path (`np.sum(None > 0)` raising `TypeError` when the
  affected mask is `None`) is an `Except.error` result;
* OpenCV/NumPy rendering primitives (`cv2.rectangle`, `cv2.addWeighted`,
  `cv2.findContours`, `np.zeros_like`, boolean-mask assignment) are external
  library calls; they are taken as parameters (`CvPrims`), so theorems about
  the pipeline hold for every interpretation of those primitives.
-/

/-- A grayscale raster (mask): rows of pixel values, row-major. -/
abbrev Mask : Type := List (List Nat)

/-- A color (BGR) raster: rows of pixels, each pixel a list of channel values. -/
abbrev Img : Type := List (List (List Nat))

/-- One grid cell `((x1, y1), (x2, y2))` as produced by `create_grid_overlay`. -/
abbrev Cell : Type := (Int × Int) × (Int × Int)

/-- Python `max(lo, min(hi, q))` on floats, as used by the sanitation lines of
`get_osi_score` and the area clamp of `analyze_grid_cells`. -/
def clampQ (lo hi q : ℚ) : ℚ := max lo (min hi q)

/-- Python `int()` on a float: truncation toward zero. -/
def pyInt (q : ℚ) : ℤ := if 0 ≤ q then ⌊q⌋ else ⌈q⌉

/-- Area score `A`: the `if/elif` band ladder of `get_osi_score`
(`osi_grading.py` lines 174–186), applied to the already-clamped
`area_percent`.  Note the bands test `1 <= ap <= 10`, `11 <= ap <= 25`, … so a
fractional value in a gap such as `(0,1)` or `(10,11)` falls through to the
`else` branch. -/
def areaScoreOf (ap : ℚ) : ℤ :=
  if ap = 0 then 0
  else if 1 ≤ ap ∧ ap ≤ 10 then 1
  else if 11 ≤ ap ∧ ap ≤ 25 then 2
  else if 26 ≤ ap ∧ ap ≤ 50 then 3
  else if 51 ≤ ap ∧ ap ≤ 75 then 4
  else 5

/-- Severity category: the `if/elif` ladder on `total_score`
(`osi_grading.py` lines 195–203). -/
def severityOf (t : ℤ) : String :=
  if t = 0 then "Clinically Cured / No involvement"
  else if 1 ≤ t ∧ t ≤ 5 then "Mild"
  else if 6 ≤ t ∧ t ≤ 15 then "Moderate"
  else "Severe"

/-- The result dictionary returned by `get_osi_score`. -/
structure OSIScore where
  area_score : ℤ
  proximity_score : ℤ
  total_osi_score : ℤ
  severity : String
  area_percent : ℚ
  proximity_level : ℤ
  deriving Repr, DecidableEq

/-- Embedding of `get_osi_score(area_percent, proximity_level)`
(`osi_grading.py` lines 151–213): sanitize both inputs
(`area_percent = max(0, min(100, float(area_percent)))`,
`proximity_level = max(1, min(5, int(proximity_level)))`), take the area band
score, use the clamped proximity level verbatim as the proximity score,
multiply, and classify the total. -/
def get_osi_score (area_percent : ℚ) (proximity_level : ℚ) : OSIScore :=
  let ap : ℚ := clampQ 0 100 area_percent
  let pl : ℤ := max 1 (min 5 (pyInt proximity_level))
  let area_score : ℤ := areaScoreOf ap
  let proximity_score : ℤ := pl
  let total_score : ℤ := area_score * proximity_score
  { area_score := area_score
    proximity_score := proximity_score
    total_osi_score := total_score
    severity := severityOf total_score
    area_percent := ap
    proximity_level := pl }

/-- The area band ladder only ever returns a value in `{0,…,5}`. -/
theorem areaScoreOf_mem (ap : ℚ) : 0 ≤ areaScoreOf ap ∧ areaScoreOf ap ≤ 5 := by
  unfold areaScoreOf
  split_ifs <;> decide

/-- The sanitized proximity level lies in `{1,…,5}`. -/
theorem clamp15_mem (z : ℤ) : 1 ≤ max 1 (min 5 z) ∧ max 1 (min 5 z) ≤ 5 := by
  omega

/-- Python `int()` is the identity on integer values. -/
theorem pyInt_intCast (z : ℤ) : pyInt (z : ℚ) = z := by
  unfold pyInt
  split_ifs
  · exact Int.floor_intCast z
  · exact Int.ceil_intCast z

/-- C1.  The claim asserts that `area_score` is monotonically non-decreasing in
`area_percent` over all valid inputs in `[0,100]`.  The code violates this:
`area_percent = 0.5` misses every band (`== 0`, `1 ≤ · ≤ 10`, …) and falls
through to the `else` branch, scoring 5, while `area_percent = 1` scores 1.
This theorem evaluates the embedded code at that failing input: `0.5 < 1` yet
the area score drops from 5 to 1. -/
theorem get_osi_score_area_band_gap_nonmonotone :
    (get_osi_score (1/2) 1).area_score = 5 ∧
    (get_osi_score 1 1).area_score = 1 ∧
    ((1:ℚ)/2 < 1 ∧ ¬ ((5:ℤ) ≤ 1)) := by
  refine ⟨?_, ?_, by norm_num⟩ <;>
    simp only [get_osi_score] <;>
    norm_num [clampQ, areaScoreOf, min_def, max_def]

/-- C3, counterexample.  The claim says `get_osi_score` coerces a fractional
`proximity_level` to the *nearest* valid integer in `[1,5]`.  At input `2.7`
the nearest integer is `3` (`round (27/10) = 3`), but the code applies Python
`int()`, which truncates toward zero, so the returned proximity score is `2`. -/
theorem get_osi_score_proximity_not_nearest :
    (get_osi_score 0 (27/10)).proximity_score = 2 ∧
    round ((27:ℚ)/10) = 3 ∧ (2:ℤ) ≠ 3 := by
  have hf : ⌊(27:ℚ)/10⌋ = 2 := by
    rw [Int.floor_eq_iff]
    norm_num
  refine ⟨?_, ?_, by decide⟩
  · simp only [get_osi_score, pyInt]
    rw [if_pos (by norm_num : (0:ℚ) ≤ 27/10), hf]
    decide
  · have : round ((27:ℚ)/10) = ⌊(27:ℚ)/10 + 1/2⌋ := round_eq _
    rw [this, Int.floor_eq_iff]
    norm_num

/-- C3, amended.  For every nonnegative numeric `proximity_level` input,
`get_osi_score` truncates it to an integer (Python `int()`, i.e. the floor for
nonnegative values) and then clamps the result to `[1,5]`; in particular the
fractional part is discarded, not rounded to nearest. -/
theorem get_osi_score_proximity_trunc_clamp (ap q : ℚ) (hq : 0 ≤ q) :
    (get_osi_score ap q).proximity_score = max 1 (min 5 ⌊q⌋) := by
  simp only [get_osi_score, pyInt, if_pos hq]

/-- C3, witness for the amended theorem at `proximity_level = 2.7`. -/
theorem get_osi_score_proximity_trunc_clamp_witness :
    (get_osi_score 0 ((27:ℚ)/10)).proximity_score = max 1 (min 5 ⌊(27:ℚ)/10⌋) :=
  get_osi_score_proximity_trunc_clamp 0 ((27:ℚ)/10) (by norm_num)

/-- C6.  For every input, `total_osi_score = area_score * proximity_score` and
`total_osi_score ∈ [0,25]`; and for every integer `proximity_level ∈ {1,…,5}`
the returned `proximity_score` equals that level exactly. -/
theorem get_osi_score_total_product_bounds (ap pl : ℚ) :
    ((get_osi_score ap pl).total_osi_score
        = (get_osi_score ap pl).area_score * (get_osi_score ap pl).proximity_score) ∧
    (0 ≤ (get_osi_score ap pl).total_osi_score ∧
      (get_osi_score ap pl).total_osi_score ≤ 25) ∧
    (∀ z : ℤ, 1 ≤ z → z ≤ 5 → (get_osi_score ap (z : ℚ)).proximity_score = z) := by
  refine ⟨rfl, ?_, ?_⟩
  · have ha := areaScoreOf_mem (clampQ 0 100 ap)
    have hp := clamp15_mem (pyInt pl)
    simp only [get_osi_score]
    constructor
    · exact mul_nonneg ha.1 (by omega)
    · nlinarith [ha.1, ha.2, hp.1, hp.2]
  · intro z h1 h5
    simp only [get_osi_score, pyInt_intCast]
    omega

/-- C6, witness at `area_percent = 30`, `proximity_level = 4`. -/
theorem get_osi_score_total_product_bounds_witness :
    (get_osi_score 30 4).proximity_score = 4 :=
  (get_osi_score_total_product_bounds 30 4).2.2 4 (by decide) (by decide)

/-- C7.  For every input, the severity label is the exact step function of the
total score: 0 ↦ "Clinically Cured / No involvement", 1–5 ↦ "Mild",
6–15 ↦ "Moderate", 16–25 ↦ "Severe". -/
theorem get_osi_score_severity_step (ap pl : ℚ) :
    ((get_osi_score ap pl).total_osi_score = 0 →
      (get_osi_score ap pl).severity = "Clinically Cured / No involvement") ∧
    (1 ≤ (get_osi_score ap pl).total_osi_score ∧ (get_osi_score ap pl).total_osi_score ≤ 5 →
      (get_osi_score ap pl).severity = "Mild") ∧
    (6 ≤ (get_osi_score ap pl).total_osi_score ∧ (get_osi_score ap pl).total_osi_score ≤ 15 →
      (get_osi_score ap pl).severity = "Moderate") ∧
    (16 ≤ (get_osi_score ap pl).total_osi_score ∧ (get_osi_score ap pl).total_osi_score ≤ 25 →
      (get_osi_score ap pl).severity = "Severe") := by
  simp only [get_osi_score]
  set t : ℤ := areaScoreOf (clampQ 0 100 ap) * max 1 (min 5 (pyInt pl)) with ht
  refine ⟨?_, ?_, ?_, ?_⟩ <;> intro h <;> unfold severityOf <;> split_ifs <;>
    first | rfl | (exfalso; omega)

/-- C7, witness: a total score of 5 (area band 1 × proximity 5) is "Mild". -/
theorem get_osi_score_severity_step_witness :
    (get_osi_score 10 5).severity = "Mild" := by
  have h : (get_osi_score 10 5).total_osi_score = 5 := by
    simp only [get_osi_score]
    have h1 : clampQ 0 100 (10:ℚ) = 10 := by norm_num [clampQ, min_def, max_def]
    have h2 : pyInt (5:ℚ) = 5 := by exact_mod_cast pyInt_intCast 5
    rw [h1, h2]
    norm_num [areaScoreOf, min_def, max_def]
  exact (get_osi_score_severity_step 10 5).2.1 (by simp [h])

/-- C8.  Clamp idempotence of `get_osi_score`: out-of-range inputs produce
output identical to their clamped counterparts — `area_percent = 150` behaves
as `100`, `proximity_level = 0` as `1`, and `proximity_level = 9` as `5`,
whatever the other argument is. -/
theorem get_osi_score_clamp_idempotent :
    (∀ pl : ℚ, get_osi_score 150 pl = get_osi_score 100 pl) ∧
    (∀ ap : ℚ, get_osi_score ap 0 = get_osi_score ap 1) ∧
    (∀ ap : ℚ, get_osi_score ap 9 = get_osi_score ap 5) := by
  refine ⟨?_, ?_, ?_⟩ <;> intro q
  · have h : clampQ 0 100 (150:ℚ) = clampQ 0 100 100 := by
      norm_num [clampQ, min_def, max_def]
    simp only [get_osi_score, h]
  · have h0 : pyInt (0:ℚ) = 0 := by exact_mod_cast pyInt_intCast 0
    have h1 : pyInt (1:ℚ) = 1 := by exact_mod_cast pyInt_intCast 1
    have h : max 1 (min 5 (0:ℤ)) = max 1 (min 5 (1:ℤ)) := by decide
    simp only [get_osi_score, h0, h1, h]
  · have h9 : pyInt (9:ℚ) = 9 := by exact_mod_cast pyInt_intCast 9
    have h5 : pyInt (5:ℚ) = 5 := by exact_mod_cast pyInt_intCast 5
    have h : max 1 (min 5 (9:ℤ)) = max 1 (min 5 (5:ℤ)) := by decide
    simp only [get_osi_score, h9, h5, h]

/-- Number of set (positive) pixels of a mask: `np.sum(mask > 0)`. -/
def countPos (m : Mask) : ℕ :=
  (m.map (fun row => row.countP (fun p => decide (0 < p)))).sum

/-- Row index of the topmost set pixel:
`np.where(np.any(mask > 0, axis=1))[0][0]`, i.e. the least row index whose row
contains a positive pixel, `none` when no pixel is set. -/
def topAffectedRow : Mask → Option ℕ
  | [] => none
  | row :: rest =>
    if row.any (fun p => decide (0 < p)) then some 0
    else (topAffectedRow rest).map (· + 1)

/-- The ratio `affected_top / max_row` used by `analyze_grid_cells`. -/
def proximityRatio (m : Mask) (top : ℕ) : ℚ := (top : ℚ) / (m.length : ℚ)

/-- The result dictionary of `analyze_grid_cells`. -/
structure GridAnalysis where
  area_percent : ℚ
  proximity_level : ℤ
  total_nail_area_px : ℕ
  affected_area_px : ℕ
  deriving Repr, DecidableEq

/-- Embedding of `OSIGridAnalyzer.analyze_grid_cells(segmentation_mask,
affected_mask, grid)` (`osi_grading.py` lines 85–149).  The `grid` argument is
received but not consumed by the percentage/proximity math, exactly as in the
source.  Area: `affected / nail * 100` clamped to `[0,100]`, defined as `0`
when the nail pixel count is `0`.  Proximity: ladder on
`affected_top / max_row`, defaulting to 1 when no pixel is set or the mask
height is `≤ 0`, with a final `max(1, min(5, ·))` clamp. -/
def analyze_grid_cells (segmentation_mask affected_mask : Mask)
    (_grid : List (List Cell)) : GridAnalysis :=
  let total_nail_area := countPos segmentation_mask
  let total_affected_area := countPos affected_mask
  let area_percent : ℚ :=
    if 0 < total_nail_area then
      clampQ 0 100 ((total_affected_area : ℚ) / (total_nail_area : ℚ) * 100)
    else 0
  let proximity_level : ℤ :=
    match topAffectedRow affected_mask with
    | none => 1
    | some affected_top =>
      if affected_mask.length ≤ 0 then 1
      else
        let ratio := proximityRatio affected_mask affected_top
        if 8/10 < ratio then 1
        else if 6/10 < ratio then 2
        else if 4/10 < ratio then 3
        else if 2/10 < ratio then 4
        else 5
  { area_percent := area_percent
    proximity_level := max 1 (min 5 proximity_level)
    total_nail_area_px := total_nail_area
    affected_area_px := total_affected_area }

/-- The topmost set row index, when it exists, is a valid row index. -/
theorem topAffectedRow_lt_length :
    ∀ {m : Mask} {t : ℕ}, topAffectedRow m = some t → t < m.length := by
  intro m
  induction m with
  | nil => intro t h; simp [topAffectedRow] at h
  | cons row rest ih =>
    intro t h
    simp only [topAffectedRow] at h
    split_ifs at h with hrow
    · simp only [Option.some.injEq] at h
      simp only [List.length_cons]
      omega
    · cases hrest : topAffectedRow rest with
      | none => simp [hrest] at h
      | some t0 =>
        simp [hrest] at h
        have := ih hrest
        simp only [List.length_cons]
        omega

/-- A mask with no set pixel has no topmost set row. -/
theorem topAffectedRow_eq_none_of_countPos_eq_zero :
    ∀ {m : Mask}, countPos m = 0 → topAffectedRow m = none := by
  intro m
  induction m with
  | nil => intro _; rfl
  | cons row rest ih =>
    intro h
    simp only [countPos, List.map_cons, List.sum_cons] at h
    have hrow : row.countP (fun p => decide (0 < p)) = 0 := by omega
    have hrest : countPos rest = 0 := by
      simp only [countPos]; omega
    have hany : row.any (fun p => decide (0 < p)) = false := by
      rw [List.any_eq_false]
      intro x hx
      have := List.countP_eq_zero.mp hrow x hx
      simpa using this
    simp only [topAffectedRow, hany, ih hrest]
    rfl

/-- Evaluation of the classifier on the healthy measurements `(0, 1)`. -/
theorem get_osi_score_zero_one :
    get_osi_score 0 1 = ⟨0, 1, 0, "Clinically Cured / No involvement", 0, 1⟩ := by
  have h1 : clampQ 0 100 (0:ℚ) = 0 := by norm_num [clampQ]
  have h2 : pyInt (1:ℚ) = 1 := by exact_mod_cast pyInt_intCast 1
  simp only [get_osi_score, h1, h2]
  norm_num [areaScoreOf, severityOf, min_def, max_def]

/-- C5.  `analyze_grid_cells` computes the proximity level exactly as the spec
describes: level 1 when no pixel of the affected mask is set (hence also when
the mask height is 0); otherwise, with `ratio = topmost_set_row / mask_height`,
level 1 for `ratio > 0.8`, 2 for `0.6 < ratio ≤ 0.8`, 3 for
`0.4 < ratio ≤ 0.6`, 4 for `0.2 < ratio ≤ 0.4`, 5 for `ratio ≤ 0.2`; and the
result always lies in `[1,5]`. -/
theorem analyze_grid_cells_proximity_spec (seg aff : Mask) (g : List (List Cell))
    (L : ℤ) (hL : L = (analyze_grid_cells seg aff g).proximity_level) :
    (topAffectedRow aff = none → L = 1) ∧
    (∀ top : ℕ, topAffectedRow aff = some top →
      ((8:ℚ)/10 < proximityRatio aff top → L = 1) ∧
      ((6:ℚ)/10 < proximityRatio aff top ∧ proximityRatio aff top ≤ 8/10 → L = 2) ∧
      ((4:ℚ)/10 < proximityRatio aff top ∧ proximityRatio aff top ≤ 6/10 → L = 3) ∧
      ((2:ℚ)/10 < proximityRatio aff top ∧ proximityRatio aff top ≤ 4/10 → L = 4) ∧
      (proximityRatio aff top ≤ 2/10 → L = 5)) ∧
    (aff.length = 0 → L = 1) ∧
    (1 ≤ L ∧ L ≤ 5) := by
  subst hL
  cases htop : topAffectedRow aff with
  | none =>
    refine ⟨fun _ => ?_, fun top h => ?_, fun _ => ?_, ?_, ?_⟩
    · norm_num [analyze_grid_cells, htop]
    · exact absurd h (by simp)
    · norm_num [analyze_grid_cells, htop]
    · norm_num [analyze_grid_cells, htop]
    · norm_num [analyze_grid_cells, htop]
  | some top =>
    have hlt := topAffectedRow_lt_length htop
    have hlen : ¬ (aff.length ≤ 0) := by omega
    have hred : (analyze_grid_cells seg aff g).proximity_level
        = max 1 (min 5 (if 8/10 < proximityRatio aff top then 1
          else if 6/10 < proximityRatio aff top then 2
          else if 4/10 < proximityRatio aff top then 3
          else if 2/10 < proximityRatio aff top then 4 else (5:ℤ))) := by
      simp only [analyze_grid_cells, htop, if_neg hlen]
    rw [hred]
    refine ⟨fun h => ?_, fun top2 h2 => ?_, fun h0 => ?_, clamp15_mem _⟩
    · exact absurd h (by simp)
    · have heq : top2 = top := by injection h2 with h3; omega
      subst heq
      refine ⟨fun hc => ?_, fun hc => ?_, fun hc => ?_, fun hc => ?_, fun hc => ?_⟩
      · rw [if_pos hc]; decide
      · rw [if_neg (by linarith [hc.2]), if_pos hc.1]; decide
      · rw [if_neg (by linarith [hc.2]), if_neg (by linarith [hc.2]), if_pos hc.1]
        decide
      · rw [if_neg (by linarith [hc.2]), if_neg (by linarith [hc.2]),
          if_neg (by linarith [hc.2]), if_pos hc.1]
        decide
      · rw [if_neg (by linarith [hc]), if_neg (by linarith [hc]),
          if_neg (by linarith [hc]), if_neg (by linarith [hc])]
        decide
    · exact absurd h0 (by omega)

/-- C5, witness: a single-row affected mask with its set pixel in row 0 has
ratio 0 ≤ 0.2, so the proximity level is 5. -/
theorem analyze_grid_cells_proximity_spec_witness :
    (analyze_grid_cells [] [[1]] []).proximity_level = 5 := by
  have h := (analyze_grid_cells_proximity_spec [] [[1]] []
    ((analyze_grid_cells [] [[1]] []).proximity_level) rfl).2.1 0 rfl
  exact h.2.2.2.2 (by norm_num [proximityRatio])

/-- C4.  An all-zero affected mask (with any nail mask, including an all-zero
one) makes `analyze_grid_cells` report `area_percent = 0` and
`proximity_level = 1`, and feeding those to `get_osi_score` yields
`total_osi_score = 0` with severity "Clinically Cured / No involvement"; and a
nail mask with zero set pixels makes `area_percent` equal `0` by definition
rather than raising. -/
theorem osi_healthy_and_empty_nail :
    (∀ (seg aff : Mask) (g : List (List Cell)), countPos aff = 0 →
      (analyze_grid_cells seg aff g).area_percent = 0 ∧
      (analyze_grid_cells seg aff g).proximity_level = 1 ∧
      (get_osi_score (analyze_grid_cells seg aff g).area_percent
        ((analyze_grid_cells seg aff g).proximity_level : ℚ)).total_osi_score = 0 ∧
      (get_osi_score (analyze_grid_cells seg aff g).area_percent
        ((analyze_grid_cells seg aff g).proximity_level : ℚ)).severity
        = "Clinically Cured / No involvement") ∧
    (∀ (seg aff : Mask) (g : List (List Cell)), countPos seg = 0 →
      (analyze_grid_cells seg aff g).area_percent = 0) := by
  constructor
  · intro seg aff g h
    have htop := topAffectedRow_eq_none_of_countPos_eq_zero h
    have harea : (analyze_grid_cells seg aff g).area_percent = 0 := by
      simp only [analyze_grid_cells]
      split_ifs with hn
      · rw [h]; norm_num [clampQ]
      · rfl
    have hprox : (analyze_grid_cells seg aff g).proximity_level = 1 := by
      simp only [analyze_grid_cells, htop]
      decide
    refine ⟨harea, hprox, ?_, ?_⟩
    · rw [harea, hprox]
      simp [get_osi_score_zero_one]
    · rw [harea, hprox]
      simp [get_osi_score_zero_one]
  · intro seg aff g h
    simp only [analyze_grid_cells]
    split_ifs with hn
    · exfalso; omega
    · rfl

/-- C4, witness: the healthy path on `1×1` masks, and the empty-nail override
with a non-empty affected mask. -/
theorem osi_healthy_and_empty_nail_witness :
    (analyze_grid_cells [[255]] [[0]] []).proximity_level = 1 ∧
    (analyze_grid_cells [[0], [0]] [[7]] []).area_percent = 0 :=
  ⟨(osi_healthy_and_empty_nail.1 [[255]] [[0]] [] (by decide)).2.1,
   osi_healthy_and_empty_nail.2 [[0], [0]] [[7]] [] (by decide)⟩

/-- Embedding of `OSIGridAnalyzer.create_grid_overlay(img_height, img_width,
nail_bbox)` (`osi_grading.py` lines 50–83), with the analyzer's constructor
parameters `grid_cols`/`grid_rows` (4 and 5 in the pipeline) made explicit.
The image dimensions are received but unused in the cell math, as in the
source.  Cell sizes are exact (float) quotients; each corner coordinate is
`int(x + col * cell_width)` etc., i.e. truncated toward zero. -/
def create_grid_overlay (grid_cols grid_rows : ℕ) (_img_height _img_width : ℤ)
    (nail_bbox : ℤ × ℤ × ℤ × ℤ) : List (List Cell) :=
  let (x, y, w, h) := nail_bbox
  let cell_width : ℚ := (w : ℚ) / (grid_cols : ℚ)
  let cell_height : ℚ := (h : ℚ) / (grid_rows : ℚ)
  (List.range grid_rows).map (fun (row : ℕ) =>
    (List.range grid_cols).map (fun (col : ℕ) =>
      ((pyInt ((x : ℚ) + (col : ℚ) * cell_width),
        pyInt ((y : ℚ) + (row : ℚ) * cell_height)),
       (pyInt ((x : ℚ) + ((col : ℚ) + 1) * cell_width),
        pyInt ((y : ℚ) + ((row : ℚ) + 1) * cell_height)))))

/-- Any integer lying between the first and the `n`-th value of a sequence of
integers lies between two consecutive values of the sequence. -/
theorem exists_between_chain (b : ℕ → ℤ) :
    ∀ (n : ℕ) (px : ℤ), b 0 ≤ px → px < b n →
      ∃ c, c < n ∧ b c ≤ px ∧ px < b (c + 1) := by
  intro n
  induction n with
  | zero => intro px h0 hn; exact absurd hn (by omega)
  | succ n ih =>
    intro px h0 hn
    by_cases hc : b n ≤ px
    · exact ⟨n, Nat.lt_succ_self n, hc, hn⟩
    · obtain ⟨c, hlt, h1, h2⟩ := ih px h0 (by omega)
      exact ⟨c, by omega, h1, h2⟩

/-- C9.  For every bounding box `(x, y, w, h)` with `w, h > 0`, the 4×5 grid
built by `create_grid_overlay` has exactly 20 cells — 5 rows of 4 cells in
row-major order (the cell at row `r`, column `c` has its corners at the
truncated coordinates `int(x + c·w/4) … int(y + (r+1)·h/5)`) — and the union of
the half-open cell rectangles covers the bounding box: every pixel of the box
lies in some cell (the tiling is in fact exact, which is stronger than the
claimed "at most 1 px of truncation loss per cell"). -/
theorem create_grid_overlay_grid_invariant (x y w h H W : ℤ)
    (g : List (List Cell)) (hg : g = create_grid_overlay 4 5 H W (x, y, w, h))
    (_hw : 0 < w) (_hh : 0 < h) :
    g.length = 5 ∧
    (∀ row ∈ g, row.length = 4) ∧
    (g.map List.length).sum = 20 ∧
    (∀ r c : ℕ, r < 5 → c < 4 →
      (g[r]?.bind fun row => row[c]?) = some
        ((pyInt ((x : ℚ) + (c : ℚ) * ((w : ℚ) / ((4:ℕ) : ℚ))),
          pyInt ((y : ℚ) + (r : ℚ) * ((h : ℚ) / ((5:ℕ) : ℚ)))),
         (pyInt ((x : ℚ) + ((c : ℚ) + 1) * ((w : ℚ) / ((4:ℕ) : ℚ))),
          pyInt ((y : ℚ) + ((r : ℚ) + 1) * ((h : ℚ) / ((5:ℕ) : ℚ)))))) ∧
    (∀ px py : ℤ, x ≤ px → px < x + w → y ≤ py → py < y + h →
      ∃ row ∈ g, ∃ cell ∈ row,
        cell.1.1 ≤ px ∧ px < cell.2.1 ∧ cell.1.2 ≤ py ∧ py < cell.2.2) := by
  subst hg
  refine ⟨rfl, ?_, rfl, ?_, ?_⟩
  · intro row hrow
    simp only [create_grid_overlay, List.mem_map] at hrow
    obtain ⟨r, _, rfl⟩ := hrow
    rfl
  · intro r c hr hc
    interval_cases r <;> interval_cases c <;> rfl
  · intro px py hx1 hx2 hy1 hy2
    have hgrid : create_grid_overlay 4 5 H W (x, y, w, h)
        = (List.range 5).map (fun (row : ℕ) => (List.range 4).map (fun (col : ℕ) =>
            ((pyInt ((x : ℚ) + (col : ℚ) * ((w : ℚ) / ((4:ℕ) : ℚ))),
              pyInt ((y : ℚ) + (row : ℚ) * ((h : ℚ) / ((5:ℕ) : ℚ)))),
             (pyInt ((x : ℚ) + ((col : ℚ) + 1) * ((w : ℚ) / ((4:ℕ) : ℚ))),
              pyInt ((y : ℚ) + ((row : ℚ) + 1) * ((h : ℚ) / ((5:ℕ) : ℚ))))))) := rfl
    have hbx0 : pyInt ((x : ℚ)) = x := pyInt_intCast x
    have hbx4 : pyInt ((x : ℚ) + 4 * ((w : ℚ) / 4)) = x + w := by
      have he : (x : ℚ) + 4 * ((w : ℚ) / 4) = (((x + w) : ℤ) : ℚ) := by
        push_cast; ring
      rw [he, pyInt_intCast]
    have hby0 : pyInt ((y : ℚ)) = y := pyInt_intCast y
    have hby5 : pyInt ((y : ℚ) + 5 * ((h : ℚ) / 5)) = y + h := by
      have he : (y : ℚ) + 5 * ((h : ℚ) / 5) = (((y + h) : ℤ) : ℚ) := by
        push_cast; ring
      rw [he, pyInt_intCast]
    obtain ⟨c, hc4, hcx1, hcx2⟩ :=
      exists_between_chain (fun c => pyInt ((x : ℚ) + ((c:ℕ) : ℚ) * ((w : ℚ) / ((4:ℕ) : ℚ))))
        4 px (by simpa [hbx0] using hx1) (by simpa [hbx4] using hx2)
    obtain ⟨r, hr5, hry1, hry2⟩ :=
      exists_between_chain (fun r => pyInt ((y : ℚ) + ((r:ℕ) : ℚ) * ((h : ℚ) / ((5:ℕ) : ℚ))))
        5 py (by simpa [hby0] using hy1) (by simpa [hby5] using hy2)
    have hcx2' : px < pyInt ((x : ℚ) + ((c : ℚ) + 1) * ((w : ℚ) / ((4:ℕ) : ℚ))) := by
      have he : (x : ℚ) + (((c + 1 : ℕ)) : ℚ) * ((w : ℚ) / ((4:ℕ) : ℚ))
          = (x : ℚ) + ((c : ℚ) + 1) * ((w : ℚ) / ((4:ℕ) : ℚ)) := by
        push_cast; ring
      rw [← he]
      exact hcx2
    have hry2' : py < pyInt ((y : ℚ) + ((r : ℚ) + 1) * ((h : ℚ) / ((5:ℕ) : ℚ))) := by
      have he : (y : ℚ) + (((r + 1 : ℕ)) : ℚ) * ((h : ℚ) / ((5:ℕ) : ℚ))
          = (y : ℚ) + ((r : ℚ) + 1) * ((h : ℚ) / ((5:ℕ) : ℚ)) := by
        push_cast; ring
      rw [← he]
      exact hry2
    rw [hgrid]
    refine ⟨(List.range 4).map (fun (col : ℕ) =>
        ((pyInt ((x : ℚ) + (col : ℚ) * ((w : ℚ) / ((4:ℕ) : ℚ))),
          pyInt ((y : ℚ) + ((r:ℕ) : ℚ) * ((h : ℚ) / ((5:ℕ) : ℚ)))),
         (pyInt ((x : ℚ) + ((col : ℚ) + 1) * ((w : ℚ) / ((4:ℕ) : ℚ))),
          pyInt ((y : ℚ) + (((r:ℕ) : ℚ) + 1) * ((h : ℚ) / ((5:ℕ) : ℚ)))))),
      List.mem_map.mpr ⟨r, List.mem_range.mpr hr5, rfl⟩, ?_⟩
    exact ⟨((pyInt ((x : ℚ) + ((c:ℕ) : ℚ) * ((w : ℚ) / ((4:ℕ) : ℚ))),
          pyInt ((y : ℚ) + ((r:ℕ) : ℚ) * ((h : ℚ) / ((5:ℕ) : ℚ)))),
         (pyInt ((x : ℚ) + (((c:ℕ) : ℚ) + 1) * ((w : ℚ) / ((4:ℕ) : ℚ))),
          pyInt ((y : ℚ) + (((r:ℕ) : ℚ) + 1) * ((h : ℚ) / ((5:ℕ) : ℚ))))),
      List.mem_map.mpr ⟨c, List.mem_range.mpr hc4, rfl⟩,
      hcx1, hcx2', hry1, hry2'⟩

/-- C9, witness: the unit bounding box `(0, 0, 1, 1)` satisfies the
hypotheses of the grid invariant. -/
theorem create_grid_overlay_grid_invariant_witness :
    (create_grid_overlay 4 5 10 10 (0, 0, 1, 1)).length = 5 :=
  (create_grid_overlay_grid_invariant 0 0 1 1 10 10
    (create_grid_overlay 4 5 10 10 (0, 0, 1, 1)) rfl (by decide) (by decide)).1

/-- Maximum pixel value of a mask (`mask.max()`, with 0 for an empty mask). -/
def maxVal (m : Mask) : ℕ := (m.map (fun row => row.foldr max 0)).foldr max 0

/-- The uint8 normalization applied to masks throughout `osi_grading.py`:
`(mask * 255).astype(np.uint8) if mask.max() <= 1 else mask.astype(np.uint8)`.
Both branches allocate a fresh array; `astype(np.uint8)` wraps modulo 256. -/
def uint8OfMask (m : Mask) : Mask :=
  if maxVal m ≤ 1 then m.map (fun row => row.map (fun p => p * 255 % 256))
  else m.map (fun row => row.map (fun p => p % 256))

/-- An OpenCV contour: a list of points. -/
abbrev Contour : Type := List (ℤ × ℤ)

/-- The OpenCV/NumPy primitives used by the pipeline.  They are external
library calls whose pixel-level semantics the repository does not define, so
they are kept abstract: every theorem below holds for every interpretation.
`rectangle` and `maskedSet` model `cv2.rectangle(buf, p1, p2, color, thick)`
and `buf[mask > thresh] = color` as functions from the written buffer's old
value to its new value; `zerosLike`, `addWeighted`, `findContours`,
`contourArea` and `boundingRect` only read their arguments and return fresh
values. -/
structure CvPrims where
  findContours : Mask → List Contour
  contourArea : Contour → ℚ
  boundingRect : Contour → ℤ × ℤ × ℤ × ℤ
  rectangle : Img → (ℤ × ℤ) → (ℤ × ℤ) → (ℕ × ℕ × ℕ) → ℕ → Img
  zerosLike : Img → Img
  maskedSet : Img → Mask → ℕ → (ℕ × ℕ × ℕ) → Img
  addWeighted : Img → ℚ → Img → ℚ → ℚ → Img

/-- Embedding of `OSIGridAnalyzer.detect_nail_contour` (`osi_grading.py`
lines 26–48): normalize the mask to uint8, find external contours, return
`None` when there are none, else the first contour of maximal area (Python
`max(contours, key=cv2.contourArea)`) with its bounding rectangle. -/
def detect_nail_contour (P : CvPrims) (segmentation_mask : Mask) :
    Option (Contour × (ℤ × ℤ × ℤ × ℤ)) :=
  let mask_uint8 := uint8OfMask segmentation_mask
  match P.findContours mask_uint8 with
  | [] => none
  | c :: cs =>
    let nail_contour :=
      cs.foldl (fun best k => if P.contourArea best < P.contourArea k then k else best) c
    some (nail_contour, P.boundingRect nail_contour)

/-- `analyze_grid_cells` as reached from the pipeline, where the affected mask
may be Python `None`: its very first use, `np.sum(affected_mask > 0)`, raises
`TypeError` on `None` (`None > 0` is an unsupported comparison in Python 3),
so the call errors out before producing any result. -/
def analyze_grid_cells_checked (seg : Mask) (aff : Option Mask)
    (grid : List (List Cell)) : Except String GridAnalysis :=
  match aff with
  | none => Except.error "TypeError: unsupported comparison between NoneType and int"
  | some a => Except.ok (analyze_grid_cells seg a grid)

/-- Embedding of `draw_grid_on_image(image, grid, affected_mask, cell_info)`
(`osi_grading.py` lines 216–252).  The returned pair is
`(output, final values of the input buffers (image, affected_mask))`: the
source draws on `output = image.copy()` and on a fresh `np.zeros_like`
overlay, so every in-place write (`cv2.rectangle`, boolean-mask assignment)
targets a freshly allocated buffer and the inputs are returned unchanged.
`cell_info` is accepted and unused, as in the source. -/
def draw_grid_on_image (P : CvPrims) (image : Img) (grid : List (List Cell))
    (affected_mask : Option Mask) (_cell_info : Option Unit) :
    Img × (Img × Option Mask) :=
  let output := image
  let output := grid.foldl (fun acc row =>
    row.foldl (fun acc2 cell => P.rectangle acc2 cell.1 cell.2 (0, 255, 0) 3) acc) output
  match affected_mask with
  | none => (output, image, none)
  | some am =>
    let affected_mask_uint8 := uint8OfMask am
    let affected_overlay := P.zerosLike output
    let affected_overlay := P.maskedSet affected_overlay affected_mask_uint8 127 (0, 0, 255)
    let output := P.addWeighted output (85/100) affected_overlay (25/100) 0
    (output, image, some am)

/-- Height of a color raster (`img.shape[0]`). -/
def imgHeight (img : Img) : ℤ := (img.length : ℤ)

/-- Width of a color raster (`img.shape[1]`). -/
def imgWidth (img : Img) : ℤ := ((img.headD []).length : ℤ)

/-- The result dictionary of `process_nail_for_grading`. -/
structure GradingOutputs where
  osi_score : OSIScore
  grid_analysis : GridAnalysis
  grid_visualization : Img
  nail_segmentation_visualization : Img
  grid_coordinates : List (List Cell)
  nail_bbox : ℤ × ℤ × ℤ × ℤ

/-- Embedding of `process_nail_for_grading(cropped_nail_image,
segmentation_mask, affected_mask, nail_bbox_from_detection)` (`osi_grading.py`
lines 255–339).  `seg_is_uint8`/`aff_is_uint8` model the `dtype != np.uint8`
tests (when a mask is already uint8 the source binds it by reference without
copying; it is only ever read afterwards).  The bounding box comes from the
detection argument `(x1,y1,x2,y2) ↦ (x1,y1,x2-x1,y2-y1)` when given, else
from contour detection, else the full frame.  The first component is the
function's result — `Except.error` models the uncaught `TypeError` raised
inside `analyze_grid_cells` when `affected_mask` is `None` — and the second
component is the final values of the three input buffers. -/
def process_nail_for_grading (P : CvPrims) (cropped_nail_image : Img)
    (segmentation_mask : Mask) (seg_is_uint8 : Bool)
    (affected_mask : Option Mask) (aff_is_uint8 : Bool)
    (nail_bbox_from_detection : Option (ℤ × ℤ × ℤ × ℤ)) :
    Except String GradingOutputs × (Img × Mask × Option Mask) :=
  let seg_mask_uint8 :=
    if seg_is_uint8 then segmentation_mask else uint8OfMask segmentation_mask
  let aff_mask_uint8 : Option Mask :=
    match affected_mask with
    | some am => if aff_is_uint8 then some am else some (uint8OfMask am)
    | none => none
  let nail_bbox : ℤ × ℤ × ℤ × ℤ :=
    match nail_bbox_from_detection with
    | some (x1, y1, x2, y2) => (x1, y1, x2 - x1, y2 - y1)
    | none =>
      match detect_nail_contour P seg_mask_uint8 with
      | some (_, bbox) => bbox
      | none => (0, 0, imgWidth cropped_nail_image, imgHeight cropped_nail_image)
  let grid := create_grid_overlay 4 5
    (imgHeight cropped_nail_image) (imgWidth cropped_nail_image) nail_bbox
  let result : Except String GradingOutputs :=
    match analyze_grid_cells_checked seg_mask_uint8 aff_mask_uint8 grid with
    | Except.error e => Except.error e
    | Except.ok grid_analysis =>
      let osi_result :=
        get_osi_score grid_analysis.area_percent (grid_analysis.proximity_level : ℚ)
      let grid_image := (draw_grid_on_image P cropped_nail_image grid aff_mask_uint8 none).1
      let nail_overlay := P.zerosLike cropped_nail_image
      let nail_overlay := P.maskedSet nail_overlay seg_mask_uint8 127 (255, 255, 255)
      let nail_segmentation_viz :=
        P.addWeighted cropped_nail_image (7/10) nail_overlay (3/10) 0
      Except.ok
        { osi_score := osi_result
          grid_analysis := grid_analysis
          grid_visualization := grid_image
          nail_segmentation_visualization := nail_segmentation_viz
          grid_coordinates := grid
          nail_bbox := nail_bbox }
  (result, (cropped_nail_image, segmentation_mask, affected_mask))

/-- C2.  The claim says calling `process_nail_for_grading` with the affected
mask absent (`None`) raises no exception and returns a full zero-score result.
The code instead propagates an uncaught `TypeError` from
`np.sum(affected_mask > 0)` inside `analyze_grid_cells`, whatever the image,
nail mask, dtypes, bounding box, or rendering primitives. -/
theorem process_nail_for_grading_none_raises (P : CvPrims) (img : Img) (seg : Mask)
    (b1 b2 : Bool) (bb : Option (ℤ × ℤ × ℤ × ℤ)) :
    (process_nail_for_grading P img seg b1 none b2 bb).1
      = Except.error "TypeError: unsupported comparison between NoneType and int" := rfl

/-- C10.  Neither `draw_grid_on_image` nor `process_nail_for_grading` mutates
its input rasters: after a call the image, nail mask and affected mask hold
exactly their initial values, for every interpretation of the OpenCV/NumPy
drawing primitives — every in-place write in the source targets a freshly
allocated copy or a `zeros_like` overlay. -/
theorem pipeline_preserves_input_rasters :
    (∀ (P : CvPrims) (image : Img) (grid : List (List Cell)) (am : Option Mask)
      (ci : Option Unit), (draw_grid_on_image P image grid am ci).2 = (image, am)) ∧
    (∀ (P : CvPrims) (img : Img) (seg : Mask) (b1 : Bool) (aff : Option Mask)
      (b2 : Bool) (bb : Option (ℤ × ℤ × ℤ × ℤ)),
      (process_nail_for_grading P img seg b1 aff b2 bb).2 = (img, seg, aff)) := by
  constructor
  · intro P image grid am ci
    cases am <;> rfl
  · intro P img seg b1 aff b2 bb
    rfl
